import Mathlib

/-!
Verification development for the SlurmSpawner job-lifecycle engine
(src/slurmspawner/slurmspawner.py).

The Python code shells out to Slurm commands (`squeue`, `scancel`, `sbatch`,
`host`) and inspects their text output.  The embedding below turns each
method into a pure Lean function; the text that each external command would
print is passed in explicitly through small environment structures, one
field per command invocation (the in-`start` polling loop receives a list of
successive outputs, one per loop iteration, since the scheduler answer can
change over time).  Functions additionally return instrumentation counters
(number of external commands issued, number of `scancel` attempts, number of
`sbatch` submissions) so that claims about "no query issued" or "zero
submissions" are statable.
-/

namespace SlurmSpawner

/-- Substring containment on character lists: does `n` occur contiguously
inside `h`? -/
def pyInChars (n : List Char) : List Char → Bool
  | [] => n.isEmpty
  | c :: t => n.isPrefixOf (c :: t) || pyInChars n t

/-- Python substring test `needle in hay` on strings. -/
def pyIn (needle hay : String) : Bool :=
  pyInChars needle.toList hay.toList

/-- One step of Python `str.split(sep)` (single-character separator,
keeping empty fields), consumed by `List.foldr`. -/
def pySplitAux (sep c : Char) (acc : List (List Char)) : List (List Char) :=
  match acc with
  | [] => [[c]]
  | g :: gs => if c = sep then [] :: g :: gs else (c :: g) :: gs

/-- Python `str.split(sep)` on a character list: splits at every occurrence
of `sep`, keeping empty fields; the result is never empty. -/
def pySplitChars (sep : Char) (cs : List Char) : List (List Char) :=
  cs.foldr (pySplitAux sep) [[]]

/-- Python `str.split(sep)` for a single-character separator. -/
def pySplit (sep : Char) (s : String) : List String :=
  (pySplitChars sep s.toList).map String.mk

/-- Python `s.split(' ')[-1]`: the last field of a single-space split
(used on `sbatch` output to recover the job id, and on `host` output to
recover the address). -/
def lastSpaceToken (s : String) : String :=
  (pySplit ' ' s).getLastD ""

/-- The engine-owned per-user record: `slurm_job_id` and `slurm_port`
(both Python strings; empty string means "nothing tracked"). -/
structure SpawnerRecord where
  slurm_job_id : String
  slurm_port : String
deriving DecidableEq

/-- The engine-owned keys of the persisted state dictionary.  A `none`
field models an absent dictionary key (`state.get(key, '')` then yields
the empty string).  The superclass-owned keys are not engine state and are
not modelled. -/
structure PersistedState where
  slurm_job_id : Option String
  slurm_port : Option String
deriving DecidableEq

/-- `SlurmSpawner.load_state` (line 86): reads `slurm_job_id` and
`slurm_port` from the persisted dictionary, defaulting to the empty
string. -/
def load_state (s : PersistedState) : SpawnerRecord :=
  ⟨s.slurm_job_id.getD "", s.slurm_port.getD ""⟩

/-- `SlurmSpawner.get_state` (line 92): adds each of the two engine keys
to the dictionary only when its value is truthy (non-empty). -/
def get_state (r : SpawnerRecord) : PersistedState :=
  ⟨if r.slurm_job_id ≠ "" then some r.slurm_job_id else none,
   if r.slurm_port ≠ "" then some r.slurm_port else none⟩

/-- `SlurmSpawner.clear_state` (line 101): resets both engine fields to
the empty string. -/
def clear_state : SpawnerRecord := ⟨"", ""⟩

/-- The text answers the scheduler would give to one
`check_slurm_job_state` call: output of `squeue -h -j <id> -o %T`
(stripped) and of `squeue -h -j <id> -O reason` (stripped). -/
structure CheckEnv where
  stateOut : String
  reasonOut : String
deriving DecidableEq

/-- `SlurmSpawner.check_slurm_job_state` (line 142).  Returns the derived
state string together with the number of `squeue` invocations issued
(0 when the job id is empty and the method returns early, 2 when the
state output contains `PENDING` and the reason is also queried,
1 otherwise). -/
def check_slurm_job_state (jobId : String) (env : CheckEnv) : String × Nat :=
  if jobId = "" then ("", 0)
  else
    let out := env.stateOut
    if pyIn "PENDING" out then
      (if pyIn "failed" env.reasonOut then ("FAILED", 2) else (out, 2))
    else (out, 1)

/-- The exception message raised by `_stop_slurm_job` when `scancel`
prints anything (line 133). -/
def cancelErrMsg (jobId output : String) : String :=
  "Failed to cancel job " ++ jobId ++ ": slurm output: " ++ output

/-- Outcome of one `_stop_slurm_job` call: `True`, `False`, or a raised
`SlurmException`. -/
inductive CancelResult
  | stopped
  | notStopped
  | raised (msg : String)
deriving DecidableEq

/-- Trace of one `_stop_slurm_job` call: its result, how many `scancel`
commands it issued, and how many `squeue` queries it issued. -/
structure CancelTrace where
  result : CancelResult
  scancels : Nat
  queries : Nat
deriving DecidableEq

/-- The membership test of line 137: the job has left the active set. -/
def jobLeftActiveSet (st : String) : Prop :=
  st = "CANCELLED" ∨ st = "COMPLETED" ∨ st = "FAILED" ∨ st = "COMPLETING" ∨ st = ""

instance (st : String) : Decidable (jobLeftActiveSet st) := by
  unfold jobLeftActiveSet
  infer_instance

/-- `SlurmSpawner._stop_slurm_job` (line 123).  `scancelOut` is the text
the `scancel` command would print.  If the job id is empty it returns
`True` without running anything; if `scancel` prints anything it raises
`SlurmException`; otherwise it re-queries the state and returns whether
the job has left the active set. -/
def stop_slurm_job (jobId scancelOut : String) (env : CheckEnv) : CancelTrace :=
  if jobId = "" then ⟨.stopped, 0, 0⟩
  else if scancelOut ≠ "" then ⟨.raised (cancelErrMsg jobId scancelOut), 1, 0⟩
  else
    let sq := check_slurm_job_state jobId env
    if jobLeftActiveSet sq.1 then ⟨.stopped, 1, sq.2⟩
    else ⟨.notStopped, 1, sq.2⟩

/-- Scheduler answers for the (at most) two `_stop_slurm_job` calls made
by `stop`. -/
structure StopEnv where
  scancel1 : String
  check1 : CheckEnv
  scancel2 : String
  check2 : CheckEnv
deriving DecidableEq

/-- What `stop` does towards its caller: returns normally or lets a
`SlurmException` escape. -/
inductive StopOutcome
  | ok
  | raised (msg : String)
deriving DecidableEq

/-- Trace of one `stop` call: outcome, final record, and total number of
`scancel` attempts issued. -/
structure StopTrace where
  outcome : StopOutcome
  record : SpawnerRecord
  scancels : Nat
deriving DecidableEq

/-- `SlurmSpawner.stop` (line 461).  With `now = false` it cancels, and if
the first attempt did not confirm, cancels exactly once more; then clears
the record.  An exception raised inside `_stop_slurm_job` propagates (the
record is then left untouched). -/
def stop (now : Bool) (rec : SpawnerRecord) (env : StopEnv) : StopTrace :=
  if now then ⟨.ok, clear_state, 0⟩
  else
    let a1 := stop_slurm_job rec.slurm_job_id env.scancel1 env.check1
    match a1.result with
    | .raised m => ⟨.raised m, rec, a1.scancels⟩
    | .stopped => ⟨.ok, clear_state, a1.scancels⟩
    | .notStopped =>
      let a2 := stop_slurm_job rec.slurm_job_id env.scancel2 env.check2
      match a2.result with
      | .raised m => ⟨.raised m, rec, a1.scancels + a2.scancels⟩
      | _ => ⟨.ok, clear_state, a1.scancels + a2.scancels⟩

/-- Scheduler answers for one `poll` call: the state check, plus the
`scancel` output and state re-check used if `poll` decides to cancel. -/
structure PollEnv where
  check : CheckEnv
  stopScancel : String
  stopCheck : CheckEnv
deriving DecidableEq

/-- What `poll` reports to the host framework. -/
inductive PollOutcome
  | alive
  | exited (code : Nat)
  | raised (msg : String)
deriving DecidableEq

/-- Trace of one `poll` call: outcome, final record, and total number of
external scheduler commands issued. -/
structure PollTrace where
  outcome : PollOutcome
  record : SpawnerRecord
  commands : Nat
deriving DecidableEq

/-- `SlurmSpawner.poll` (line 427).  `slurm_job_id` always holds a string
(never Python `None`), so the `is not None` test on line 431 is always
true and the trailing `if not self.slurm_job_id` block is unreachable;
the empty-id report happens through `check_slurm_job_state` returning `""`
without querying. -/
def poll (rec : SpawnerRecord) (env : PollEnv) : PollTrace :=
  let sq := check_slurm_job_state rec.slurm_job_id env.check
  if pyIn "RUNNING" sq.1 ∨ pyIn "PENDING" sq.1 then ⟨.alive, rec, sq.2⟩
  else if sq.1 = "" then ⟨.exited 127, clear_state, sq.2⟩
  else
    let c := stop_slurm_job rec.slurm_job_id env.stopScancel env.stopCheck
    match c.result with
    | .raised m => ⟨.raised m, rec, sq.2 + c.scancels + c.queries⟩
    | _ => ⟨.exited 127, clear_state, sq.2 + c.scancels + c.queries⟩

/-- The operator-configured defaults (the `traitlets` of lines 69-79 that
feed the submission script). -/
structure SlurmConfig where
  partition : String
  mem : Int
  time : String
  ntasks : Int
  cpus_per_task : Int
  nodes : Int
  qos : String
  job_name : String
  output : String
deriving DecidableEq

/-- The default values given to the traitlets in the source. -/
def defaultConfig : SlurmConfig :=
  ⟨"all", 400, "1-00:00:00", 1, 1, 1, "normal", "spawner-jupyterhub-singleuser",
   "/.ipython/jupyterhub-slurmspawner.log"⟩

/-- The per-session custom request read from `self.authenticator`
(lines 251-271): a `custom` flag plus the requested values. -/
structure CustomForm where
  custom : Bool
  memory : Int
  cpus : Int
  tasks : Int
  time : String
  nodes : Int
deriving DecidableEq

/-- Value of a non-empty decimal digit string. -/
def digitsVal (ds : List Char) : Int :=
  ds.foldl (fun acc c => acc * 10 + ((c.toNat : Int) - ('0'.toNat : Int))) 0

/-- Python `int(s)`, modelled on an optional sign followed by decimal
digits; any other shape raises `ValueError`, modelled as `none`. -/
def pyInt (s : String) : Option Int :=
  match s.toList with
  | [] => none
  | '-' :: ds => if ds ≠ [] ∧ ds.all (·.isDigit) then some (-(digitsVal ds)) else none
  | '+' :: ds => if ds ≠ [] ∧ ds.all (·.isDigit) then some (digitsVal ds) else none
  | ds => if ds.all (·.isDigit) then some (digitsVal ds) else none

/-- The wall-time validation of lines 262-266: split on `:`, split the
first field on `-`, and convert days, hours, minutes, seconds with
`int()`.  Any missing field (`IndexError`) or failed conversion
(`ValueError`) is an uncaught exception, modelled as `none`; on success
the parsed `days` value is returned (the only part line 267 uses).
Fields beyond the third `:` segment are ignored, exactly as in the
source. -/
def parseFormTime (s : String) : Option Int :=
  let tokens := pySplit ':' s
  let dparts := pySplit '-' (tokens.headD "")
  match dparts with
  | d0 :: d1 :: _ =>
    match tokens with
    | _ :: t1 :: t2 :: _ =>
      match pyInt d0, pyInt d1, pyInt t1, pyInt t2 with
      | some days, some _, some _, some _ => some days
      | _, _, _, _ => none
    | _ => none
  | _ => none

/-- Result of the resource-selection block: either the five selected
values, or an uncaught Python exception escaping from the wall-time
validation. -/
inductive ResSel
  | ok (memory cpus ntasks : Int) (stime : String) (nodes : Int)
  | exn
deriving DecidableEq

/-- The override-or-default selection of lines 244-271.  Each numeric
override replaces the default only when within its bound; a non-empty
wall-time override is validated with `int()` conversions that raise an
uncaught exception on malformed input (`ResSel.exn`), and when parseable
replaces the default only if `days <= 14`. -/
def selectResources (cfg : SlurmConfig) (form : CustomForm) : ResSel :=
  if form.custom then
    let memory := if form.memory > 0 then form.memory else cfg.mem
    let cpus := if form.cpus > 0 ∧ form.cpus ≤ 32 then form.cpus else cfg.cpus_per_task
    let ntasks := if form.tasks > 0 ∧ form.tasks ≤ 128 then form.tasks else cfg.ntasks
    if form.time ≠ "" then
      match parseFormTime form.time with
      | none => .exn
      | some days =>
        let stime := if days ≤ 14 then form.time else cfg.time
        let nodes := if form.nodes > 0 ∧ form.nodes ≤ 32 then form.nodes else cfg.nodes
        .ok memory cpus ntasks stime nodes
    else
      let nodes := if form.nodes > 0 ∧ form.nodes ≤ 32 then form.nodes else cfg.nodes
      .ok memory cpus ntasks cfg.time nodes
  else .ok cfg.mem cfg.cpus_per_task cfg.ntasks cfg.time cfg.nodes

/-- Lines 208-210: `full_cmd = cmd.split(';')`, then elements `[0]` and
`[1]`.  A command string with no `;` makes element `[1]` an uncaught
`IndexError`, modelled as `none`; everything after a second `;` is
dropped. -/
def splitLaunchCommand (cmd : String) : Option (String × String) :=
  match pySplit ';' cmd with
  | e :: c :: _ => some (e, c)
  | _ => none

/-- The submission-script template of lines 212-238, as its list of lines
(the source builds the same text with `string.Template` and joins these
lines with newlines; the final entry is the trailing indentation of the
closing quote). -/
def slurmScriptLines (cpus job_name mem ntasks nodes output part qos stime
    sbatch export_cmd cmd port user gid : String) : List String :=
  ["#!/bin/bash",
   "#SBATCH --cpus-per-task=" ++ cpus,
   "#SBATCH --job-name=" ++ job_name,
   "#SBATCH --mem=" ++ mem,
   "#SBATCH --ntasks=" ++ ntasks,
   "#SBATCH --nodes=" ++ nodes,
   "#SBATCH --output=/home/" ++ user ++ "/" ++ output,
   "#SBATCH --partition=" ++ part,
   "#SBATCH --qos=" ++ qos,
   "#SBATCH --time=" ++ stime,
   "#SBATCH --workdir=/home/" ++ user,
   "#SBATCH --comment=" ++ port,
   "#SBATCH --open-mode=append",
   "#SBATCH --uid=" ++ user,
   "#SBATCH --gid=" ++ gid,
   "#SBATCH --export=none",
   "#SBATCH --get-user-env=L",
   "",
   "##### USER-DEFINED TEMPLATE LOADED HERE #####",
   sbatch,
   "##### END USER-DEFINED TEMPLATE #############",
   "",
   "echo \"*** Spawning single-user server ***\"",
   export_cmd,
   cmd,
   "",
   "        "]

/-- The script `_run_jupyterhub_singleuser` renders before submitting:
the command split of lines 208-210 followed by the resource selection of
lines 244-271 substituted into the template.  `none` models the uncaught
exception paths (missing `;`, malformed wall-time). -/
def renderedScript (cfg : SlurmConfig) (form : CustomForm) (cmdStr : String)
    (port : Nat) (user gid snippet : String) : Option (List String) :=
  match splitLaunchCommand cmdStr, selectResources cfg form with
  | some ec, .ok m c t s n =>
    some (slurmScriptLines (toString c) cfg.job_name (toString m) (toString t)
      (toString n) cfg.output cfg.partition cfg.qos s snippet ec.1 ec.2
      (toString port) user gid)
  | _, _ => none

/-- Lines 305-309: the admission-token checksum, the sum of the decimal
digit values of `str(port)`. -/
def portHashSum (port : Nat) : Nat :=
  (toString port).toList.foldl (fun acc c => acc + (c.toNat - '0'.toNat)) 0

/-- The token text written to the hash file: `str(sum)`. -/
def writeTokenContent (port : Nat) : String := toString (portHashSum port)

/-- Line 298: the hash-file path, keyed by the numeric user identity. -/
def tokenFilePath (uid : Nat) : String := "/tmp/jupyter/" ++ toString uid

/-- Content of the hash file after one `writeToken` call.  The file is
opened with mode `w`, which truncates: the prior content is discarded. -/
def writeTokenFile (port : Nat) (_prior : Option String) : String :=
  writeTokenContent port

/-- Scheduler answers for one `get_slurm_job_info` call: stripped output
of `squeue -h -j <id> -o %N` and of `host <node>`. -/
structure NodeEnv where
  nodeName : String
  hostOut : String
deriving DecidableEq

/-- `SlurmSpawner.get_slurm_job_info` (line 361): `(None, None)` when no
node name is reported, otherwise the last space-separated token of the
`host` output paired with the node name. -/
def get_slurm_job_info (env : NodeEnv) : Option String × Option String :=
  if env.nodeName = "" then (none, none)
  else (some (lastSpaceToken env.hostOut), some env.nodeName)

/-- Outcome of the `while True` polling loop of lines 337-347, fed one
`CheckEnv` per state check; `exhausted` models the loop running beyond
the supplied script of scheduler answers (the source loop has no
deadline). -/
inductive LoopOutcome
  | confirmedRunning
  | failedState
  | exhausted
deriving DecidableEq

/-- The in-`start` polling loop: break on `RUNNING` (substring), re-check
on `PENDING` (substring), otherwise the job failed to start. -/
def startPollLoop (jobId : String) : List CheckEnv → LoopOutcome
  | [] => .exhausted
  | e :: rest =>
    let st := (check_slurm_job_state jobId e).1
    if pyIn "RUNNING" st then .confirmedRunning
    else if pyIn "PENDING" st then startPollLoop jobId rest
    else .failedState

/-- External-world answers consumed by `_run_jupyterhub_singleuser`:
whether opening the hash file raises `IOError`, the stripped `sbatch`
output, the successive polling answers, and the node lookup after the
job is running. -/
structure RunEnv where
  hashOpenFails : Bool
  submitOut : String
  loopChecks : List CheckEnv
  runNode : NodeEnv
deriving DecidableEq

/-- How `_run_jupyterhub_singleuser` ends. -/
inductive RunOutcome
  | success (serverIp : String) (serverPort : Nat)
  | slurmExn (msg : String)
  | pythonExn
  | unresponsive
deriving DecidableEq

/-- Trace of one `_run_jupyterhub_singleuser` call: its outcome, the
final `slurm_job_id`, and the number of `sbatch` submissions issued. -/
structure RunTrace where
  outcome : RunOutcome
  slurm_job_id : String
  submissions : Nat
deriving DecidableEq

/-- The `SlurmException` message of line 301 (the source interpolates the
file path into it). -/
def hashFileError : String := "Error opening hash file for writing"

/-- `SlurmSpawner._run_jupyterhub_singleuser` (line 195): render the
script (uncaught exception on malformed command or wall-time), write the
hash file (`SlurmException` on `IOError`), submit with `sbatch`
(`SlurmException` on empty output), take the last space-separated token
of the output as the job id, poll until `RUNNING` or a terminal state,
then resolve the node (`SlurmException` when unavailable).  The raising
paths after submission leave `slurm_job_id` set to the new job id. -/
def run_jupyterhub_singleuser (cfg : SlurmConfig) (form : CustomForm)
    (cmdStr : String) (port : Nat) (user gid snippet : String)
    (jobId0 : String) (env : RunEnv) : RunTrace :=
  match renderedScript cfg form cmdStr port user gid snippet with
  | none => ⟨.pythonExn, jobId0, 0⟩
  | some _script =>
    if env.hashOpenFails then ⟨.slurmExn hashFileError, jobId0, 0⟩
    else if env.submitOut = "" then
      ⟨.slurmExn "Slurm did not attempt to start the job! Check Slurm logs", jobId0, 1⟩
    else
      let jid := lastSpaceToken env.submitOut
      match startPollLoop jid env.loopChecks with
      | .confirmedRunning =>
        match get_slurm_job_info env.runNode with
        | (some ip, some _) => ⟨.success ip port, jid, 1⟩
        | _ => ⟨.slurmExn ("There appears to be no node info available for job " ++ jid), jid, 1⟩
      | .failedState => ⟨.slurmExn ("Job " ++ jid ++ " failed to start!"), jid, 1⟩
      | .exhausted => ⟨.unresponsive, jid, 1⟩

/-- `SlurmSpawner.query_slurm_by_jobname` (line 165), applied to the
whitespace token list of the `squeue` listing output: all-empty when no
tokens came back, otherwise the first three tokens and the remaining
reason tokens.  One or two tokens make index `[1]` or `[2]` an uncaught
`IndexError`, modelled as `none`. -/
def query_slurm_by_jobname (tokens : List String) :
    Option (String × String × String × List String) :=
  match tokens with
  | [] => some ("", "", "", [])
  | [_] => none
  | [_, _] => none
  | j :: p :: s :: r => some (j, p, s, r)

/-- External-world answers consumed by `start`: the by-name listing
tokens, the `scancel` answer and state re-check used on the
failed-reason path, the node lookup used on the reattachment path, the
freshly chosen random port, and the answers for the submission path. -/
structure StartEnv where
  queryTokens : List String
  stopScancel : String
  stopCheck : CheckEnv
  reattachNode : NodeEnv
  newPort : Nat
  run : RunEnv
deriving DecidableEq

/-- How `start` ends towards the host framework. -/
inductive StartOutcome
  | reattached (serverIp : Option String) (serverPort : String)
  | launched (serverIp : String) (serverPort : Nat)
  | slurmExn (msg : String)
  | pythonExn
  | unresponsive
deriving DecidableEq

/-- Trace of one `start` call: its outcome, the final `slurm_job_id` and
`slurm_port` record fields, and the number of `sbatch` submissions
issued. -/
structure StartTrace where
  outcome : StartOutcome
  slurm_job_id : String
  slurm_port : String
  submissions : Nat
deriving DecidableEq

/-- `SlurmSpawner.start` (line 378): query for a same-named job; treat
`COMPLETING` as absent by blanking the job id and port; on a reason
containing the token `failed`, cancel, clear the record and raise
`SlurmException` (the cancel itself raising leaves the record uncleared);
on a job id and port both present, reattach without submitting; otherwise
choose a fresh port and submit through `_run_jupyterhub_singleuser`. -/
def start (cfg : SlurmConfig) (form : CustomForm)
    (fullCmd user gid snippet : String) (rec : SpawnerRecord)
    (env : StartEnv) : StartTrace :=
  match query_slurm_by_jobname env.queryTokens with
  | none => ⟨.pythonExn, rec.slurm_job_id, rec.slurm_port, 0⟩
  | some (jobid0, port0, state, reason) =>
    let jobid := if state = "COMPLETING" then "" else jobid0
    let port := if state = "COMPLETING" then "" else port0
    if "failed" ∈ reason then
      let c := stop_slurm_job jobid env.stopScancel env.stopCheck
      match c.result with
      | .raised m => ⟨.slurmExn m, jobid, rec.slurm_port, 0⟩
      | _ => ⟨.slurmExn "Slurm failed to launch job", "", "", 0⟩
    else if jobid ≠ "" ∧ port ≠ "" then
      ⟨.reattached (get_slurm_job_info env.reattachNode).1 port, jobid, rec.slurm_port, 0⟩
    else
      let r := run_jupyterhub_singleuser cfg form fullCmd env.newPort user gid
        snippet jobid env.run
      ⟨(match r.outcome with
        | .success ip p => .launched ip p
        | .slurmExn m => .slurmExn m
        | .pythonExn => .pythonExn
        | .unresponsive => .unresponsive),
       r.slurm_job_id, rec.slurm_port, r.submissions⟩

/-- The memory value line 253-254 selects: the override when positive,
else the configured default. -/
def selMem (cfg : SlurmConfig) (form : CustomForm) : Int :=
  if form.memory > 0 then form.memory else cfg.mem

/-- The cpu count line 255-256 selects. -/
def selCpus (cfg : SlurmConfig) (form : CustomForm) : Int :=
  if form.cpus > 0 ∧ form.cpus ≤ 32 then form.cpus else cfg.cpus_per_task

/-- The task count line 257-258 selects. -/
def selTasks (cfg : SlurmConfig) (form : CustomForm) : Int :=
  if form.tasks > 0 ∧ form.tasks ≤ 128 then form.tasks else cfg.ntasks

/-- The node count line 269-270 selects. -/
def selNodes (cfg : SlurmConfig) (form : CustomForm) : Int :=
  if form.nodes > 0 ∧ form.nodes ≤ 32 then form.nodes else cfg.nodes

/-- Reference definition following the claim wording for the launch
split: everything after the FIRST `;` of the command string. -/
def dropThroughFirstSemi : List Char → List Char
  | [] => []
  | c :: rest => if c = ';' then rest else dropThroughFirstSemi rest

/-- Reference definition following the claim wording: the text after the
first `;`, which the claim says is kept as the second launch line. -/
def specAfterFirstSemicolon (s : String) : String :=
  String.mk (dropThroughFirstSemi s.toList)

end SlurmSpawner

namespace SlurmSpawner

/-- Helper: folding separator-free characters onto a split accumulator
prepends them to the first group. -/
theorem foldr_pySplitAux_no_sep (sep : Char) (e g : List Char)
    (gs : List (List Char)) (h : ∀ c ∈ e, c ≠ sep) :
    e.foldr (pySplitAux sep) (g :: gs) = (e ++ g) :: gs := by
  induction e with
  | nil => rfl
  | cons c t ih =>
    have hc : c ≠ sep := h c (List.mem_cons_self c t)
    have ht : ∀ x ∈ t, x ≠ sep := fun x hx => h x (List.mem_cons_of_mem c hx)
    simp [List.foldr_cons, ih ht, pySplitAux, hc]

/-- Helper: splitting `e ++ sep :: c` with `sep` occurring in neither
part yields exactly the two groups `e` and `c`. -/
theorem pySplitChars_append_sep (sep : Char) (e c : List Char)
    (he : ∀ x ∈ e, x ≠ sep) (hc : ∀ x ∈ c, x ≠ sep) :
    pySplitChars sep (e ++ sep :: c) = [e, c] := by
  unfold pySplitChars
  rw [List.foldr_append, List.foldr_cons]
  have h1 : c.foldr (pySplitAux sep) [[]] = [c] := by
    simpa using foldr_pySplitAux_no_sep sep c [] [] hc
  rw [h1, show pySplitAux sep sep [c] = [[], c] from by simp [pySplitAux]]
  simpa using foldr_pySplitAux_no_sep sep e [] [c] he

/-- Helper: `_stop_slurm_job` with empty `scancel` output never raises. -/
theorem stop_slurm_job_silent (jobId : String) (env : CheckEnv) :
    (stop_slurm_job jobId "" env).result = .stopped ∨
    (stop_slurm_job jobId "" env).result = .notStopped := by
  unfold stop_slurm_job
  by_cases hj : jobId = ""
  · simp [hj]
  · by_cases hc : jobLeftActiveSet (check_slurm_job_state jobId env).1 <;>
      simp [hj, hc]

/-- C10: the persisted-state hooks round-trip and persist only the job id
and port: `loadState(getState())` restores `slurm_job_id` and
`slurm_port` exactly, `getState` includes each key only when its value is
non-empty, absent keys load as empty strings, and `clearState` resets
both fields to the empty string. -/
theorem c10_state_roundtrip :
    (∀ r : SpawnerRecord, load_state (get_state r) = r) ∧
    (∀ r : SpawnerRecord,
      (get_state r).slurm_job_id =
        (if r.slurm_job_id ≠ "" then some r.slurm_job_id else none) ∧
      (get_state r).slurm_port =
        (if r.slurm_port ≠ "" then some r.slurm_port else none)) ∧
    (∀ s : PersistedState,
      load_state s = ⟨s.slurm_job_id.getD "", s.slurm_port.getD ""⟩) ∧
    clear_state = ⟨"", ""⟩ := by
  refine ⟨?_, fun r => ⟨rfl, rfl⟩, fun s => rfl, rfl⟩
  intro r
  obtain ⟨j, p⟩ := r
  unfold load_state get_state
  by_cases hj : j = "" <;> by_cases hp : p = "" <;> simp [hj, hp]

/-- C8: the admission-token writer computes the decimal digit sum of the
port rendered as text, converts it to a decimal string, and writes it to
the file keyed by the numeric identity, truncating prior content; two
calls with the same port give byte-identical content, and port 9123
yields the content 15 as text. -/
theorem c8_token_checksum :
    (∀ (port : Nat) (prior1 prior2 : Option String),
      writeTokenFile port prior1 = writeTokenFile port prior2) ∧
    writeTokenFile 9123 (some "old content") = "15" ∧
    writeTokenContent 9123 = "15" ∧
    tokenFilePath 1001 = "/tmp/jupyter/1001" := by
  exact ⟨fun _ _ _ => rfl, by decide, by decide, by decide⟩

/-- C6: `poll` on a record with no tracked job id returns the sentinel
127 immediately, issuing zero scheduler commands, and a second `poll` on
the (already clear) resulting record does the same: `poll` is idempotent
on a clear record. -/
theorem c6_poll_idempotent (rec : SpawnerRecord) (env env2 : PollEnv)
    (h : rec.slurm_job_id = "") :
    poll rec env = ⟨.exited 127, clear_state, 0⟩ ∧
    poll clear_state env2 = ⟨.exited 127, clear_state, 0⟩ := by
  have key : ∀ (e : PollEnv) (r : SpawnerRecord), r.slurm_job_id = "" →
      poll r e = ⟨.exited 127, clear_state, 0⟩ := by
    intro e r hr
    have hA : pyIn "RUNNING" "" = false := by decide
    have hB : pyIn "PENDING" "" = false := by decide
    unfold poll check_slurm_job_state
    rw [hr]
    simp [hA, hB]
  exact ⟨key env rec h, key env2 clear_state rfl⟩

/-- C6 witness at a concrete clear record. -/
theorem c6_witness :
    poll ⟨"", "9000"⟩ ⟨⟨"RUNNING", ""⟩, "boom", ⟨"", ""⟩⟩ =
      ⟨.exited 127, clear_state, 0⟩ ∧
    poll clear_state ⟨⟨"PENDING", "failed"⟩, "x", ⟨"", ""⟩⟩ =
      ⟨.exited 127, clear_state, 0⟩ :=
  c6_poll_idempotent ⟨"", "9000"⟩ ⟨⟨"RUNNING", ""⟩, "boom", ⟨"", ""⟩⟩
    ⟨⟨"PENDING", "failed"⟩, "x", ⟨"", ""⟩⟩ rfl

/-- C4: for a tracked job whose state query reports `PENDING`, a second
reason query is issued (two queries in total), and the derived state is
`FAILED` exactly when the reason text contains the substring `failed`;
otherwise the derived state stays the reported one (`PENDING` when the
query said exactly `PENDING`). -/
theorem c4_pending_reason (jobId : String) (env : CheckEnv)
    (hj : jobId ≠ "") (hp : pyIn "PENDING" env.stateOut = true) :
    (check_slurm_job_state jobId env).2 = 2 ∧
    ((check_slurm_job_state jobId env).1 = "FAILED" ↔
      pyIn "failed" env.reasonOut = true) ∧
    (pyIn "failed" env.reasonOut = false →
      (check_slurm_job_state jobId env).1 = env.stateOut) := by
  unfold check_slurm_job_state
  rw [if_neg hj]
  by_cases hf : pyIn "failed" env.reasonOut = true
  · simp [hp, hf]
  · rw [Bool.not_eq_true] at hf
    have hne : env.stateOut ≠ "FAILED" := by
      intro heq
      rw [heq] at hp
      exact absurd hp (by decide)
    simp [hp, hf, hne]

/-- C1 counterexample: a graceful `stop` whose first `scancel` prints an
error message lets `SlurmException` escape to the caller and leaves the
record uncleared, contradicting the claim that `stop()` never raises and
always clears the record. -/
theorem c1_counterexample :
    stop false ⟨"42", "9123"⟩
        ⟨"scancel: error: Invalid job id", ⟨"RUNNING", ""⟩, "", ⟨"", ""⟩⟩ =
      ⟨.raised (cancelErrMsg "42" "scancel: error: Invalid job id"), ⟨"42", "9123"⟩, 1⟩ ∧
    StopOutcome.raised (cancelErrMsg "42" "scancel: error: Invalid job id") ≠ .ok ∧
    (⟨"42", "9123"⟩ : SpawnerRecord) ≠ clear_state := by
  refine ⟨rfl, by decide, by decide⟩

/-- C1 (amended): for a graceful `stop` on a tracked job, when no
`scancel` attempt prints output, the call returns normally, the record is
cleared, and exactly one extra cancellation attempt is made when the
first does not confirm departure from the active set (one attempt when it
does); but when the first `scancel` prints output, `stop` raises
`SlurmException` after a single attempt and the record is not cleared. -/
theorem c1_amended (rec : SpawnerRecord) (env : StopEnv)
    (h : rec.slurm_job_id ≠ "") :
    (env.scancel1 = "" → env.scancel2 = "" →
      (stop false rec env).outcome = .ok ∧
      (stop false rec env).record = clear_state ∧
      (stop false rec env).scancels =
        (if jobLeftActiveSet (check_slurm_job_state rec.slurm_job_id env.check1).1
         then 1 else 2)) ∧
    (env.scancel1 ≠ "" →
      stop false rec env =
        ⟨.raised (cancelErrMsg rec.slurm_job_id env.scancel1), rec, 1⟩) := by
  constructor
  · intro h1 h2
    by_cases hc : jobLeftActiveSet (check_slurm_job_state rec.slurm_job_id env.check1).1
    · simp [stop, stop_slurm_job, h, h1, hc]
    · by_cases hd : jobLeftActiveSet (check_slurm_job_state rec.slurm_job_id env.check2).1 <;>
        simp [stop, stop_slurm_job, h, h1, h2, hc, hd]
  · intro hne
    simp [stop, stop_slurm_job, h, hne]

/-- C1 witness: a job the first silent cancel does not confirm stopped is
cancelled a second time, the record is cleared and no error escapes. -/
theorem c1_witness :
    (stop false ⟨"7", "81"⟩ ⟨"", ⟨"RUNNING", ""⟩, "", ⟨"", ""⟩⟩).outcome = .ok ∧
    (stop false ⟨"7", "81"⟩ ⟨"", ⟨"RUNNING", ""⟩, "", ⟨"", ""⟩⟩).record = clear_state ∧
    (stop false ⟨"7", "81"⟩ ⟨"", ⟨"RUNNING", ""⟩, "", ⟨"", ""⟩⟩).scancels =
      (if jobLeftActiveSet (check_slurm_job_state "7" ⟨"RUNNING", ""⟩).1
       then 1 else 2) :=
  (c1_amended ⟨"7", "81"⟩ ⟨"", ⟨"RUNNING", ""⟩, "", ⟨"", ""⟩⟩ (by decide)).1 rfl rfl

/-- C5: when the same-named-job query returns a non-empty job id, a
non-empty port, a state other than `COMPLETING` and a reason without the
token `failed`, `start` adopts the job: zero submissions, the record
holds the found job id, and the server address is populated from the
node lookup of the existing job. -/
theorem c5_reattach (cfg : SlurmConfig) (form : CustomForm)
    (fullCmd user gid snippet : String) (rec : SpawnerRecord) (env : StartEnv)
    (j p s : String) (r : List String)
    (htok : env.queryTokens = j :: p :: s :: r)
    (hj : j ≠ "") (hp : p ≠ "") (hs : s ≠ "COMPLETING") (hr : "failed" ∉ r) :
    start cfg form fullCmd user gid snippet rec env =
      ⟨.reattached (get_slurm_job_info env.reattachNode).1 p, j, rec.slurm_port, 0⟩ := by
  simp [start, query_slurm_by_jobname, htok, hs, hr, hj, hp]

/-- C5 witness: a running same-named job with id 42 and port 9000 is
adopted without a submission and its node address resolved. -/
theorem c5_witness :
    start defaultConfig ⟨false, 0, 0, 0, "", 0⟩ "a;b" "alice" "100" "# s" ⟨"", ""⟩
        ⟨["42", "9000", "RUNNING"], "", ⟨"", ""⟩,
         ⟨"cn1", "cn1 has address 10.1.2.3"⟩, 8000, ⟨false, "", [], ⟨"", ""⟩⟩⟩ =
      ⟨.reattached (get_slurm_job_info ⟨"cn1", "cn1 has address 10.1.2.3"⟩).1 "9000",
       "42", "", 0⟩ :=
  c5_reattach defaultConfig ⟨false, 0, 0, 0, "", 0⟩ "a;b" "alice" "100" "# s" ⟨"", ""⟩
    ⟨["42", "9000", "RUNNING"], "", ⟨"", ""⟩,
     ⟨"cn1", "cn1 has address 10.1.2.3"⟩, 8000, ⟨false, "", [], ⟨"", ""⟩⟩⟩
    "42" "9000" "RUNNING" [] rfl (by decide) (by decide) (by decide) (by decide)

/-- C3 counterexample: a fresh submission whose first polled state is
`FAILED` makes `start` raise `SlurmException` while the record still
holds the submitted job id 12345 — the record is not cleared on this
failure path. -/
theorem c3_counterexample :
    start defaultConfig ⟨false, 0, 0, 0, "", 0⟩ "a;b" "alice" "100" "# s" ⟨"", ""⟩
        ⟨[], "", ⟨"", ""⟩, ⟨"", ""⟩, 8000,
         ⟨false, "Submitted batch job 12345", [⟨"FAILED", ""⟩], ⟨"", ""⟩⟩⟩ =
      ⟨.slurmExn "Job 12345 failed to start!", "12345", "", 1⟩ ∧
    ("12345" : String) ≠ "" := by
  refine ⟨rfl, by decide⟩

/-- C3 (amended): on the stuck pending-with-failed-reason path (with the
cancel attempt silent) the record is cleared before `SlurmException` is
raised; but on the path where the submitted job is polled into a state
other than `RUNNING`/`PENDING`, `start` raises with the record still
holding the submitted job id — the record is not cleared there. -/
theorem c3_amended (cfg : SlurmConfig) (form : CustomForm)
    (fullCmd user gid snippet : String) (rec : SpawnerRecord) (env : StartEnv) :
    (∀ j p s r, env.queryTokens = j :: p :: s :: r → "failed" ∈ r →
      env.stopScancel = "" →
      start cfg form fullCmd user gid snippet rec env =
        ⟨.slurmExn "Slurm failed to launch job", "", "", 0⟩) ∧
    (env.queryTokens = [] →
      (renderedScript cfg form fullCmd env.newPort user gid snippet).isSome = true →
      env.run.hashOpenFails = false → env.run.submitOut ≠ "" →
      startPollLoop (lastSpaceToken env.run.submitOut) env.run.loopChecks = .failedState →
      start cfg form fullCmd user gid snippet rec env =
        ⟨.slurmExn ("Job " ++ lastSpaceToken env.run.submitOut ++ " failed to start!"),
         lastSpaceToken env.run.submitOut, rec.slurm_port, 1⟩) := by
  constructor
  · intro j p s r htok hfail hsc
    rcases stop_slurm_job_silent (if s = "COMPLETING" then "" else j) env.stopCheck
      with hres | hres <;>
      simp [start, query_slurm_by_jobname, htok, hfail, hsc, hres]
  · intro hq hrend hhash hsub hloop
    rcases Option.isSome_iff_exists.mp hrend with ⟨sc, hsc2⟩
    simp [start, query_slurm_by_jobname, hq, run_jupyterhub_singleuser,
      hsc2, hhash, hsub, hloop]

/-- C3 witness: a found job stuck pending with reason containing `failed`
makes `start` cancel, clear the record, and raise. -/
theorem c3_witness :
    start defaultConfig ⟨false, 0, 0, 0, "", 0⟩ "a;b" "alice" "100" "# s" ⟨"x", "y"⟩
        ⟨["9", "80", "PENDING", "launch", "failed"], "", ⟨"", ""⟩, ⟨"", ""⟩, 8000,
         ⟨false, "", [], ⟨"", ""⟩⟩⟩ =
      ⟨.slurmExn "Slurm failed to launch job", "", "", 0⟩ :=
  (c3_amended defaultConfig ⟨false, 0, 0, 0, "", 0⟩ "a;b" "alice" "100" "# s" ⟨"x", "y"⟩
      ⟨["9", "80", "PENDING", "launch", "failed"], "", ⟨"", ""⟩, ⟨"", ""⟩, 8000,
       ⟨false, "", [], ⟨"", ""⟩⟩⟩).1
    "9" "80" "PENDING" ["launch", "failed"] rfl (by decide) rfl

/-- C9 counterexample: a `COMPLETING` job whose reason tokens contain
`failed` does not lead to a fresh submission — `start` raises
`SlurmException` with zero submissions, while the identical environment
with no job found performs one submission. -/
theorem c9_counterexample :
    start defaultConfig ⟨false, 0, 0, 0, "", 0⟩ "export A=1;srun x" "alice" "100" "# s"
        ⟨"", ""⟩
        ⟨["42", "9000", "COMPLETING", "launch", "failed", "requeued", "held"], "",
         ⟨"", ""⟩, ⟨"", ""⟩, 8888,
         ⟨false, "Submitted batch job 12345", [⟨"RUNNING", ""⟩],
          ⟨"cn1", "cn1 has address 10.1.2.3"⟩⟩⟩ =
      ⟨.slurmExn "Slurm failed to launch job", "", "", 0⟩ ∧
    (start defaultConfig ⟨false, 0, 0, 0, "", 0⟩ "export A=1;srun x" "alice" "100" "# s"
        ⟨"", ""⟩
        ⟨[], "", ⟨"", ""⟩, ⟨"", ""⟩, 8888,
         ⟨false, "Submitted batch job 12345", [⟨"RUNNING", ""⟩],
          ⟨"cn1", "cn1 has address 10.1.2.3"⟩⟩⟩).submissions = 1 := by
  refine ⟨rfl, rfl⟩

/-- C9 (amended): a query reporting `COMPLETING` has its job id and port
discarded and `start` behaves exactly as if no job had been found,
provided the reported reason does not contain the token `failed`; with
that token present, `start` instead fails with `SlurmException`. -/
theorem c9_amended (cfg : SlurmConfig) (form : CustomForm)
    (fullCmd user gid snippet : String) (rec : SpawnerRecord) (env : StartEnv)
    (j p : String) (r : List String) (hr : "failed" ∉ r) :
    start cfg form fullCmd user gid snippet rec
        { env with queryTokens := j :: p :: "COMPLETING" :: r } =
      start cfg form fullCmd user gid snippet rec
        { env with queryTokens := [] } := by
  simp [start, query_slurm_by_jobname, hr]

/-- C9 witness: a clean `COMPLETING` job is treated exactly as an absent
one by `start`. -/
theorem c9_witness :
    start defaultConfig ⟨false, 0, 0, 0, "", 0⟩ "export A=1;srun x" "alice" "100" "# s"
        ⟨"", ""⟩
        ⟨["42", "9000", "COMPLETING"], "", ⟨"", ""⟩, ⟨"", ""⟩, 8888,
         ⟨false, "Submitted batch job 12345", [⟨"RUNNING", ""⟩],
          ⟨"cn1", "cn1 has address 10.1.2.3"⟩⟩⟩ =
      start defaultConfig ⟨false, 0, 0, 0, "", 0⟩ "export A=1;srun x" "alice" "100" "# s"
        ⟨"", ""⟩
        ⟨[], "", ⟨"", ""⟩, ⟨"", ""⟩, 8888,
         ⟨false, "Submitted batch job 12345", [⟨"RUNNING", ""⟩],
          ⟨"cn1", "cn1 has address 10.1.2.3"⟩⟩⟩ :=
  c9_amended defaultConfig ⟨false, 0, 0, 0, "", 0⟩ "export A=1;srun x" "alice" "100" "# s"
    ⟨"", ""⟩
    ⟨["x"], "", ⟨"", ""⟩, ⟨"", ""⟩, 8888,
     ⟨false, "Submitted batch job 12345", [⟨"RUNNING", ""⟩],
      ⟨"cn1", "cn1 has address 10.1.2.3"⟩⟩⟩
    "42" "9000" [] (by decide)

/-- C2 counterexample: a present but unparsable wall-time override
(`soon`) is not silently discarded in favor of the default — the
resource-selection block raises an uncaught exception and no script is
rendered; an empty (absent) override is what yields the defaults. -/
theorem c2_counterexample :
    selectResources defaultConfig ⟨true, 400, 1, 1, "soon", 1⟩ = .exn ∧
    renderedScript defaultConfig ⟨true, 400, 1, 1, "soon", 1⟩ "a;b" 9123
      "alice" "100" "# s" = none ∧
    selectResources defaultConfig ⟨true, 400, 1, 1, "", 1⟩ =
      .ok 400 1 1 "1-00:00:00" 1 ∧
    ResSel.exn ≠ .ok 400 1 1 "1-00:00:00" 1 := by
  refine ⟨rfl, rfl, rfl, by decide⟩

/-- C2 (amended): with a custom request present, each numeric directive
value embedded in the rendered script equals the override when within
bounds (memory > 0, 0 < cpus <= 32, 0 < tasks <= 128, 0 < nodes <= 32)
and the configured default otherwise; the wall-time equals the override
when it parses with days <= 14, the default when it parses with
days > 14, and is absent (empty string) both yield the default — but a
non-empty unparsable wall-time raises an uncaught exception instead of
falling back to the default. -/
theorem c2_amended (cfg : SlurmConfig) (form : CustomForm) (cmdStr : String)
    (port : Nat) (user gid snippet : String) (ec : String × String)
    (hsplit : splitLaunchCommand cmdStr = some ec)
    (hcustom : form.custom = true) :
    (form.time = "" →
      renderedScript cfg form cmdStr port user gid snippet =
        some (slurmScriptLines (toString (selCpus cfg form)) cfg.job_name
          (toString (selMem cfg form)) (toString (selTasks cfg form))
          (toString (selNodes cfg form)) cfg.output cfg.partition cfg.qos
          cfg.time snippet ec.1 ec.2 (toString port) user gid)) ∧
    (∀ d, parseFormTime form.time = some d →
      renderedScript cfg form cmdStr port user gid snippet =
        some (slurmScriptLines (toString (selCpus cfg form)) cfg.job_name
          (toString (selMem cfg form)) (toString (selTasks cfg form))
          (toString (selNodes cfg form)) cfg.output cfg.partition cfg.qos
          (if d ≤ 14 then form.time else cfg.time) snippet ec.1 ec.2
          (toString port) user gid)) ∧
    (form.time ≠ "" → parseFormTime form.time = none →
      renderedScript cfg form cmdStr port user gid snippet = none) := by
  refine ⟨?_, ?_, ?_⟩
  · intro ht
    simp [renderedScript, selectResources, hsplit, hcustom, ht,
      selMem, selCpus, selTasks, selNodes]
  · intro d hd
    by_cases ht : form.time = ""
    · rw [ht] at hd
      exact Option.noConfusion ((show parseFormTime "" = none from rfl) ▸ hd)
    · simp [renderedScript, selectResources, hsplit, hcustom, ht, hd,
        selMem, selCpus, selTasks, selNodes]
  · intro ht hpn
    simp [renderedScript, selectResources, hsplit, hcustom, ht, hpn]

/-- C2 witness: an in-bounds custom request (memory 500, 2 cpus, 3
tasks, 4 nodes, wall-time 2-00:00:00) is embedded in the rendered script
verbatim. -/
theorem c2_witness :
    renderedScript defaultConfig ⟨true, 500, 2, 3, "2-00:00:00", 4⟩ "a;b" 9123
        "alice" "100" "# s" =
      some (slurmScriptLines
        (toString (selCpus defaultConfig ⟨true, 500, 2, 3, "2-00:00:00", 4⟩))
        defaultConfig.job_name
        (toString (selMem defaultConfig ⟨true, 500, 2, 3, "2-00:00:00", 4⟩))
        (toString (selTasks defaultConfig ⟨true, 500, 2, 3, "2-00:00:00", 4⟩))
        (toString (selNodes defaultConfig ⟨true, 500, 2, 3, "2-00:00:00", 4⟩))
        defaultConfig.output defaultConfig.partition defaultConfig.qos
        (if (2 : Int) ≤ 14 then "2-00:00:00" else defaultConfig.time) "# s"
        "a" "b" (toString 9123) "alice" "100") :=
  (c2_amended defaultConfig ⟨true, 500, 2, 3, "2-00:00:00", 4⟩ "a;b" 9123
    "alice" "100" "# s" ("a", "b") (by decide) rfl).2.1 2 (by decide)

/-- C7 counterexample: for the command string `a;b;c` the second launch
line is `b`, not everything after the first `;` (`b;c`): text after a
second `;` is dropped. -/
theorem c7_counterexample :
    splitLaunchCommand "a;b;c" = some ("a", "b") ∧
    specAfterFirstSemicolon "a;b;c" = "b;c" ∧
    ("b" : String) ≠ "b;c" := by
  refine ⟨rfl, rfl, by decide⟩

/-- C7 (amended): the launch section is the first and second fields of
the semicolon split — for a command string containing exactly one `;`
(neither part containing another) the two lines are the prefix and
everything after it, and the concrete scenario command renders a launch
section of exactly the two lines `export X=1` and
`run-server --port 9123`. -/
theorem c7_amended :
    (∀ e c : String, (∀ ch ∈ e.toList, ch ≠ ';') → (∀ ch ∈ c.toList, ch ≠ ';') →
      splitLaunchCommand (e ++ ";" ++ c) = some (e, c)) ∧
    (renderedScript defaultConfig ⟨false, 0, 0, 0, "", 0⟩
        "export X=1;run-server --port 9123" 9123 "alice" "100"
        "# *** No user template found ***").map (fun L => L.drop 22) =
      some ["echo \"*** Spawning single-user server ***\"", "export X=1",
            "run-server --port 9123", "", "        "] := by
  constructor
  · intro e c he hc
    have hl : (e ++ ";" ++ c).toList = e.toList ++ ';' :: c.toList := by
      show (e ++ ";" ++ c).data = e.data ++ ';' :: c.data
      rw [String.data_append, String.data_append, List.append_assoc]
      rfl
    unfold splitLaunchCommand pySplit
    rw [hl, pySplitChars_append_sep ';' e.toList c.toList he hc]
    rfl
  · rfl

/-- C7 witness: the scenario command string splits into exactly its
export prefix and server-launch command. -/
theorem c7_witness :
    splitLaunchCommand ("export X=1" ++ ";" ++ "run-server --port 9123") =
      some ("export X=1", "run-server --port 9123") :=
  c7_amended.1 "export X=1" "run-server --port 9123" (by decide) (by decide)

/-- C4 witness at a concrete pending job with a failed requeue reason. -/
theorem c4_witness :
    (check_slurm_job_state "1234" ⟨"PENDING", "launch failed requeued held"⟩).2 = 2 ∧
    ((check_slurm_job_state "1234" ⟨"PENDING", "launch failed requeued held"⟩).1 = "FAILED" ↔
      pyIn "failed" "launch failed requeued held" = true) ∧
    (pyIn "failed" "launch failed requeued held" = false →
      (check_slurm_job_state "1234" ⟨"PENDING", "launch failed requeued held"⟩).1 = "PENDING") :=
  c4_pending_reason "1234" ⟨"PENDING", "launch failed requeued held"⟩
    (by decide) (by decide)

end SlurmSpawner
